import Mathlib

/-!
# Verification of the GCE backend provider (`backend/gce.go`)

A shallow embedding of the Google Compute Engine build-executor provider
from `src/github.com/travis-ci/worker/backend/gce.go`, together with
theorems settling the frozen claims about it.

External effects (the cloud compute API, SSH/SFTP, `strconv`/`time`
parsers) are modelled as explicit parameters or oracle environments; the
control flow of each embedded function mirrors the Go source.
-/

namespace GCEWorker

/-- One entry of a `compute.OperationError` (`Errors` slice element):
`code`, `location`, `message`. -/
structure OpErrorItem where
  code : String
  location : String
  message : String
deriving DecidableEq, Repr

/-- Context errors from `golang.org/x/net/context`: `DeadlineExceeded` or
`Canceled`, as observed via `ctx.Err()`. -/
inductive CtxError
  | deadlineExceeded
  | canceled
deriving DecidableEq, Repr

/-- Go `error` values that appear in the embedded code paths:
the `ErrStaleVM` sentinel, opaque transport/library errors (carried as a
string), `fmt.Errorf` messages, `gceOpError` wrapping a
`compute.OperationError`, and `ctx.Err()` results. -/
inductive GCEError
  | errStaleVM
  | transport (s : String)
  | msg (s : String)
  | opError (errs : List OpErrorItem)
  | ctxErr (c : CtxError)
deriving DecidableEq, Repr

/-- A `compute.Image`: only the fields the provider reads (`Name`,
`SelfLink`). -/
structure ComputeImage where
  name : String
  selfLink : String
deriving DecidableEq, Repr

/-! ## Image resolution (`imageByFilter`, `imageForLanguage`,
`legacyImageSelect`) -/

/-- `gceImageTravisCIPrefixFilter = "name eq ^travis-ci-%s.+"` applied to a
language, as in `imageForLanguage`. -/
def gceImageTravisCIPrefixFilter (language : String) : String :=
  "name eq ^travis-ci-" ++ language ++ ".+"

/-- The `imagesByName` map of `imageByFilter`, built by Go map assignment in
slice order (a later image with the same `Name` overwrites an earlier one).
Modelled as an association list where the most recent insertion is looked
up first. -/
def imagesByNameMap (items : List ComputeImage) : List (String × ComputeImage) :=
  items.foldl (fun m img => (img.name, img) :: m) []

/-- `gceProvider.imageByFilter`: `cloud` models
`Images.List(projectID).Filter(filter).Do()`. On transport error the error
is propagated; an empty item list yields
`fmt.Errorf("no image found with filter %s", filter)`; otherwise the names
are sorted (`sort.Strings`, embedded as `insertionSort`) and the map entry
for the last (greatest) name is returned.  Go would dereference a nil map
entry if the name were absent; that branch is unreachable and embedded as a
zero-value image. -/
def imageByFilter (cloud : String → Except GCEError (List ComputeImage))
    (filter : String) : Except GCEError ComputeImage :=
  match cloud filter with
  | .error e => .error e
  | .ok items =>
    if items.length = 0 then
      .error (.msg ("no image found with filter " ++ filter))
    else
      let imageNames := items.map (·.name)
      let sorted := List.insertionSort (· ≤ ·) imageNames
      match (imagesByNameMap items).lookup (sorted.getLastD "") with
      | some img => .ok img
      | none => .ok ⟨"", ""⟩

/-- `gceProvider.imageForLanguage`. -/
def imageForLanguage (cloud : String → Except GCEError (List ComputeImage))
    (language : String) : Except GCEError ComputeImage :=
  imageByFilter cloud (gceImageTravisCIPrefixFilter language)

/-- `config.ProviderConfig`: a keyed string bag.  Embedded as an
association list; `Set` prepends, so the newest binding wins on lookup,
matching overwrite semantics. -/
def ProviderConfig : Type := List (String × String)

/-- `ProviderConfig.IsSet`. -/
def ProviderConfig.IsSet (cfg : ProviderConfig) (key : String) : Bool :=
  (List.lookup key cfg).isSome

/-- `ProviderConfig.Get` (empty string when unset). -/
def ProviderConfig.Get (cfg : ProviderConfig) (key : String) : String :=
  (List.lookup key cfg).getD ""

/-- `ProviderConfig.Set`. -/
def ProviderConfig.Set (cfg : ProviderConfig) (key value : String) : ProviderConfig :=
  (key, value) :: cfg

/-- The `StartAttributes` fields the GCE provider reads. -/
structure StartAttributes where
  language : String
  osxImage : String
  dist : String
  group : String
  os : String
deriving DecidableEq, Repr

/-- The candidate-language list of `gceProvider.legacyImageSelect`: the
value of `LANGUAGE_MAP_{UPPER(lang)}` when that option is set, else the raw
`Language`, followed by the `defaultLanguage` of the provider. -/
def legacyCandidateLangs (cfg : ProviderConfig) (defaultLanguage : String)
    (startAttributes : StartAttributes) : List String :=
  let mappedLang := "LANGUAGE_MAP_" ++ startAttributes.language.toUpper
  (if cfg.IsSet mappedLang then [cfg.Get mappedLang]
   else [startAttributes.language]) ++ [defaultLanguage]

/-- The `for` loop of `legacyImageSelect`: `image, err` persist across
iterations, the loop breaks on the first `err == nil`, and after the loop
the last `(image, err)` pair is returned.  `acc` is the pair from the
previous iteration (the initial `nil, nil` pair is unreachable because the
candidate list is never empty). -/
def legacySelectLoop (f : String → Except GCEError ComputeImage) :
    List String → Except GCEError ComputeImage → Except GCEError ComputeImage
  | [], acc => acc
  | language :: rest, _ =>
    match f language with
    | .ok img => .ok img
    | .error e => legacySelectLoop f rest (.error e)

/-- `gceProvider.legacyImageSelect`. -/
def legacyImageSelect (cloud : String → Except GCEError (List ComputeImage))
    (cfg : ProviderConfig) (defaultLanguage : String)
    (startAttributes : StartAttributes) : Except GCEError ComputeImage :=
  legacySelectLoop (imageForLanguage cloud)
    (legacyCandidateLangs cfg defaultLanguage startAttributes) (.ok ⟨"", ""⟩)

/-! ## Provider construction (`newGCEProvider`, option resolution) -/

/-- `defaultGCEZone`. -/
def defaultGCEZone : String := "us-central1-a"

/-- `defaultGCEMachineType`. -/
def defaultGCEMachineType : String := "n1-standard-2"

/-- `defaultGCENetwork`. -/
def defaultGCENetwork : String := "default"

/-- `defaultGCEDiskSize` (GiB). -/
def defaultGCEDiskSize : Int := 20

/-- `defaultGCELanguage`. -/
def defaultGCELanguage : String := "minimal"

/-- `defaultGCEBootPollSleep = 3 * time.Second`, in nanoseconds. -/
def defaultGCEBootPollSleep : Int := 3000000000

/-- `defaultGCEUploadRetries`. -/
def defaultGCEUploadRetries : Nat := 10

/-- `defaultGCEUploadRetrySleep = 5 * time.Second`, in nanoseconds. -/
def defaultGCEUploadRetrySleep : Int := 5000000000

/-- `defaultGCEHardTimeoutMinutes`. -/
def defaultGCEHardTimeoutMinutes : Int := 130

/-- `defaultGCEImageSelectorType`. -/
def defaultGCEImageSelectorType : String := "legacy"

/-- `defaultGCEImage`. -/
def defaultGCEImage : String := "travis-ci-mega.+"

/-- The external parsers `newGCEProvider` calls, modelled abstractly:
`strconv.ParseInt(s, 10, 64)`, `strconv.ParseUint(s, 10, 64)`,
`time.ParseDuration` (result in nanoseconds) and `strconv.ParseBool`.
`none` models a parse error. -/
structure Parsers where
  parseInt : String → Option Int
  parseUint : String → Option Nat
  parseDuration : String → Option Int
  parseBool : String → Option Bool

/-- The option values `newGCEProvider` resolves (the subset of the
`gceProvider` / `gceInstanceConfig` fields built from config options),
together with the config mapping after the `ZONE` / `MACHINE_TYPE` /
`NETWORK` write-backs. -/
structure ResolvedOptions where
  cfg : ProviderConfig
  zoneName : String
  mtName : String
  nwName : String
  diskSize : Int
  bootPollSleep : Int
  uploadRetries : Nat
  uploadRetrySleep : Int
  defaultLanguage : String
  defaultImage : String
  autoImplode : Bool
  hardTimeoutMinutes : Int
  imageSelectorType : String

/-- The `ZONE` / `MACHINE_TYPE` / `NETWORK` resolution of
`newGCEProvider`: each takes the configured value when set, else its
default, and is written back onto the config with `cfg.Set`. Returns the
updated config and the three resolved names. -/
def resolveZoneMachineNetwork (cfg : ProviderConfig) :
    ProviderConfig × String × String × String :=
  let zoneName := if cfg.IsSet "ZONE" then cfg.Get "ZONE" else defaultGCEZone
  let cfg := cfg.Set "ZONE" zoneName
  let mtName := if cfg.IsSet "MACHINE_TYPE" then cfg.Get "MACHINE_TYPE" else defaultGCEMachineType
  let cfg := cfg.Set "MACHINE_TYPE" mtName
  let nwName := if cfg.IsSet "NETWORK" then cfg.Get "NETWORK" else defaultGCENetwork
  let cfg := cfg.Set "NETWORK" nwName
  (cfg, zoneName, mtName, nwName)

/-- The shared shape of the fallible option parses in `newGCEProvider`:
when `key` is set its value is parsed, a parse failure is a construction
error (Go returns the parse error itself; embedded as an opaque transport
error naming the option), and when unset the default is used. -/
def parsedOpt {α : Type} (parse : String → Option α) (cfg : ProviderConfig)
    (key : String) (default : α) : Except GCEError α :=
  if cfg.IsSet key then
    (parse (cfg.Get key)).elim
      (Except.error (GCEError.transport ("parse " ++ key))) Except.ok
  else .ok default

/-- The option-resolution portion of `newGCEProvider` (everything after
the SSH-key loading, which involves only the filesystem and crypto
libraries): resolves `ZONE`/`MACHINE_TYPE`/`NETWORK` with write-back, then
`DISK_SIZE` (parse failure silently keeps the default), then
`BOOT_POLL_SLEEP`, `UPLOAD_RETRIES`, `UPLOAD_RETRY_SLEEP` (parse failure
is a construction error), then `DEFAULT_LANGUAGE`, `IMAGE_DEFAULT`,
`AUTO_IMPLODE`, `HARD_TIMEOUT_MINUTES` (parse failure is a construction
error), then validates `IMAGE_SELECTOR_TYPE` against the three literals. -/
def resolveGCEOptions (ps : Parsers) (cfg : ProviderConfig) :
    Except GCEError ResolvedOptions :=
  let r := resolveZoneMachineNetwork cfg
  let cfg1 := r.1
  let zoneName := r.2.1
  let mtName := r.2.2.1
  let nwName := r.2.2.2
  let diskSize :=
    if cfg1.IsSet "DISK_SIZE" then
      match ps.parseInt (cfg1.Get "DISK_SIZE") with
      | some ds => ds
      | none => defaultGCEDiskSize
    else defaultGCEDiskSize
  match parsedOpt ps.parseDuration cfg1 "BOOT_POLL_SLEEP" defaultGCEBootPollSleep with
  | .error e => .error e
  | .ok bootPollSleep =>
  match parsedOpt ps.parseUint cfg1 "UPLOAD_RETRIES" defaultGCEUploadRetries with
  | .error e => .error e
  | .ok uploadRetries =>
  match parsedOpt ps.parseDuration cfg1 "UPLOAD_RETRY_SLEEP" defaultGCEUploadRetrySleep with
  | .error e => .error e
  | .ok uploadRetrySleep =>
  let defaultLanguage :=
    if cfg1.IsSet "DEFAULT_LANGUAGE" then cfg1.Get "DEFAULT_LANGUAGE"
    else defaultGCELanguage
  let defaultImage :=
    if cfg1.IsSet "IMAGE_DEFAULT" then cfg1.Get "IMAGE_DEFAULT"
    else defaultGCEImage
  match parsedOpt ps.parseBool cfg1 "AUTO_IMPLODE" true with
  | .error e => .error e
  | .ok autoImplode =>
  match parsedOpt ps.parseInt cfg1 "HARD_TIMEOUT_MINUTES" defaultGCEHardTimeoutMinutes with
  | .error e => .error e
  | .ok hardTimeoutMinutes =>
  let imageSelectorType :=
    if cfg1.IsSet "IMAGE_SELECTOR_TYPE" then cfg1.Get "IMAGE_SELECTOR_TYPE"
    else defaultGCEImageSelectorType
  if imageSelectorType ≠ "legacy" ∧ imageSelectorType ≠ "env" ∧
      imageSelectorType ≠ "api" then
    .error (.msg ("invalid image selector type " ++ imageSelectorType))
  else
    .ok { cfg := cfg1, zoneName, mtName, nwName, diskSize, bootPollSleep,
          uploadRetries, uploadRetrySleep, defaultLanguage, defaultImage,
          autoImplode, hardTimeoutMinutes, imageSelectorType }

/-! ## Script upload (`UploadScript`, `uploadScriptAttempt`) -/

/-- The environment of one `uploadScriptAttempt`: the outcomes of the
external calls it makes, in order — `sshClient()` (dial), `sftp.NewClient`,
`sftp.Create("build.sh")` and `f.Write(script)`.  `none` models success,
`some e` the error returned by that call.  The `Lstat("build.sh")` outcome
is not part of the environment: it is determined by the remote filesystem
state (whether `build.sh` exists). -/
structure AttemptEnv where
  sshResult : Option GCEError
  sftpResult : Option GCEError
  createResult : Option GCEError
  writeResult : Option GCEError
deriving DecidableEq, Repr

/-- `gceInstance.uploadScriptAttempt`, as a transition on the remote
filesystem state `buildShExists` (whether `build.sh` is present).  Returns
the error of the attempt (`none` = success) and the new state: a failed dial,
SFTP setup or create leaves the state unchanged; when `Lstat("build.sh")`
succeeds (the file exists) the sentinel `ErrStaleVM` is returned before
any write; a successful `sftp.Create` makes the file exist even when the
subsequent `Write` fails. -/
def uploadScriptAttempt (env : AttemptEnv) (buildShExists : Bool) :
    Option GCEError × Bool :=
  match env.sshResult with
  | some e => (some e, buildShExists)
  | none =>
    match env.sftpResult with
    | some e => (some e, buildShExists)
    | none =>
      if buildShExists then (some .errStaleVM, buildShExists)
      else
        match env.createResult with
        | some e => (some e, buildShExists)
        | none =>
          match env.writeResult with
          | some e => (some e, true)
          | none => (none, true)

/-- The uploader goroutine of `gceInstance.UploadScript`, under a context
that is never cancelled (`ctx.Err() == nil` at every iteration):
`errCount` starts at zero; a `nil` attempt error is surfaced as success;
otherwise `errCount` is incremented and, when it exceeds `uploadRetries`,
the error of the last attempt is surfaced; else the loop sleeps
`uploadRetrySleep` and retries.  `attemptResult k` is the error of the
`k`-th attempt (0-based; `none` = success).  Returns the surfaced result
and the total number of attempts made after `attemptsSoFar`. -/
def uploadLoopAux (attemptResult : Nat → Option GCEError) (uploadRetries : Nat)
    (errCount attemptsSoFar : Nat) : Option GCEError × Nat :=
  match attemptResult attemptsSoFar with
  | none => (none, attemptsSoFar + 1)
  | some e =>
    if errCount + 1 > uploadRetries then (some e, attemptsSoFar + 1)
    else uploadLoopAux attemptResult uploadRetries (errCount + 1) (attemptsSoFar + 1)
termination_by uploadRetries + 1 - errCount
decreasing_by
  omega

/-- `gceInstance.UploadScript` with a never-cancelled context: the
uploader loop starting from `errCount = 0`, returning the surfaced result
and the total number of attempts made. -/
def uploadScript (attemptResult : Nat → Option GCEError) (uploadRetries : Nat) :
    Option GCEError × Nat :=
  uploadLoopAux attemptResult uploadRetries 0 0

/-! ## Remote execution (`RunScript`) -/

/-- `RunResult`: `Completed` and `ExitCode` (a `uint8`, embedded as a
natural number below 256). -/
structure RunResult where
  completed : Bool
  exitCode : Nat
deriving DecidableEq, Repr

/-- The outcome of `session.Run("bash ~/build.sh")`: `nil`, a typed
`*ssh.ExitError` carrying `ExitStatus() int`, or any other error. -/
inductive SSHRunOutcome
  | success
  | exitError (status : Int)
  | otherError (e : GCEError)
deriving DecidableEq, Repr

/-- The environment of one `RunScript` call: outcomes of `sshClient()`,
`client.NewSession()`, `session.RequestPty(...)` (`none` = success) and of
`session.Run("bash ~/build.sh")`. -/
structure RunScriptEnv where
  sshResult : Option GCEError
  sessionResult : Option GCEError
  ptyResult : Option GCEError
  runOutcome : SSHRunOutcome
deriving DecidableEq, Repr

/-- `gceInstance.RunScript`: dial, open session, request PTY — any failure
yields `{Completed: false}` plus the error; a `nil` run error yields
`{Completed: true, ExitCode: 0}`; an `*ssh.ExitError` yields
`{Completed: true, ExitCode: uint8(status)}` (the Go `uint8` conversion,
embedded as `status % 256` with Euclidean remainder) and no error; any
other run error yields `{Completed: false}` plus that error. -/
def runScript (env : RunScriptEnv) : RunResult × Option GCEError :=
  match env.sshResult with
  | some e => (⟨false, 0⟩, some e)
  | none =>
    match env.sessionResult with
    | some e => (⟨false, 0⟩, some e)
    | none =>
      match env.ptyResult with
      | some e => (⟨false, 0⟩, some e)
      | none =>
        match env.runOutcome with
        | .success => (⟨true, 0⟩, none)
        | .exitError status => (⟨true, (status % 256).toNat⟩, none)
        | .otherError e => (⟨false, 0⟩, some e)

/-! ## `Start` after a successful insert (abandonment) -/

/-- A `compute.Instance` as `Start` handles it: only the name matters for
the abandonment claims. -/
structure ComputeInstance where
  name : String
deriving DecidableEq, Repr

/-- Which branch of the final `select` of `Start` (over `instChan`, `errChan`
and `ctx.Done()`) fires, with the received payload.  `errReceived` carries
what a poller goroutine sent on `errChan` (a transport error from
`ZoneOperations.Get` or a wrapped op error). -/
inductive SelectOutcome
  | instanceReady (inst : ComputeInstance)
  | errReceived (e : GCEError)
  | ctxDone (c : CtxError)
deriving DecidableEq, Repr

/-- Which way the inner waiting loop of the group-join path (racing
`origInstanceReady` against `ctx.Done()`, sleeping in the `default` case)
terminates. -/
inductive GroupWaitOutcome
  | instanceReady (inst : ComputeInstance)
  | ctxDone (c : CtxError)
deriving DecidableEq, Repr

instance {ε α : Type} [DecidableEq ε] [DecidableEq α] : DecidableEq (Except ε α) :=
  fun x y =>
    match x, y with
    | .error a, .error b =>
      if h : a = b then .isTrue (by rw [h]) else .isFalse (by simp [h])
    | .error _, .ok _ => .isFalse (by simp)
    | .ok _, .error _ => .isFalse (by simp)
    | .ok a, .ok b =>
      if h : a = b then .isTrue (by rw [h]) else .isFalse (by simp [h])

/-- The oracle environment for `Start` after
`Instances.Insert(...).Do()` succeeded: the `instanceGroup` option of the provider
option, how the group-wait loop ends, the results of the refresh
`Instances.Get` and of `InstanceGroups.AddInstances` (group path only),
and which branch the final `select` takes. -/
structure StartEnv where
  instanceGroup : String
  groupWait : GroupWaitOutcome
  refreshResult : Except GCEError ComputeInstance
  addInstancesResult : Except GCEError Unit
  finalSelect : SelectOutcome
deriving DecidableEq, Repr

/-- The observable outcome of `Start` after a successful insert: the
returned value (the instance wrapped as the handle, or the error) and the
final value of the `abandonedStart` flag, which the deferred function
reads to decide whether to issue the best-effort `Instances.Delete`. -/
structure StartOutcome where
  result : Except GCEError ComputeInstance
  abandonedStart : Bool
deriving DecidableEq, Repr

/-- The final `select` of `Start`: an instance from `instChan` is wrapped
and returned (flag untouched); an error from `errChan` sets
`abandonedStart` and is returned; `ctx.Done()` sets `abandonedStart` and
returns `ctx.Err()`. -/
def startFinalSelect (abandonedStart : Bool) (sel : SelectOutcome) : StartOutcome :=
  match sel with
  | .instanceReady inst => ⟨.ok inst, abandonedStart⟩
  | .errReceived e => ⟨.error e, true⟩
  | .ctxDone c => ⟨.error (.ctxErr c), true⟩

/-- `gceProvider.Start` from the point where the insert operation was
issued and `abandonedStart := false` was set (the deferred delete is
armed).  When `instanceGroup` is empty the flow goes straight to the final
`select`.  Otherwise: the inner loop waits for the insert poller; on
`ctx.Done()` it sets `abandonedStart` and returns `ctx.Err()`; then the
instance is refreshed via `Instances.Get` — on error `Start` returns that
error with `abandonedStart` still `false`; then
`InstanceGroups.AddInstances` — on error `abandonedStart` is set and the
error returned; otherwise the group poller is started and the final
`select` runs. -/
def startAfterInsert (env : StartEnv) : StartOutcome :=
  if env.instanceGroup ≠ "" then
    match env.groupWait with
    | .ctxDone c => ⟨.error (.ctxErr c), true⟩
    | .instanceReady _ =>
      match env.refreshResult with
      | .error e => ⟨.error e, false⟩
      | .ok _ =>
        match env.addInstancesResult with
        | .error e => ⟨.error e, true⟩
        | .ok _ => startFinalSelect false env.finalSelect
  else startFinalSelect false env.finalSelect

/-! ## Operation polling (the poller of `Stop` vs the insert poller of `Start`) -/

/-- The view one iteration has of a zone operation: either the
`ZoneOperations.Get` call itself failed (transport), or it returned an
operation with a `Status` string and an optional `Error` payload. -/
inductive PollFetch
  | fetchErr (s : String)
  | op (status : String) (opErr : Option (List OpErrorItem))
deriving DecidableEq, Repr

/-- The polling goroutine of `gceInstance.Stop`, applied to the (finite
prefix of the) sequence of fetches it makes.  A transport error is sent on
`errChan`; an operation with `Status == "DONE"` sends its wrapped `Error`
payload when non-nil, else `nil`; any other status — whatever its `Error`
field holds — is followed by a `time.Sleep(bootPollSleep)` and another
poll.  `none` means the prefix was exhausted with the goroutine still
polling; `some r` is the value sent on `errChan`. -/
def stopPollLoop : List PollFetch → Option (Option GCEError)
  | [] => none
  | .fetchErr s :: _ => some (some (.transport s))
  | .op status opErr :: rest =>
    if status = "DONE" then
      match opErr with
      | some errs => some (some (.opError errs))
      | none => some none
    else stopPollLoop rest

/-- The insert-polling goroutine of `gceProvider.Start`, on the same view:
identical to the poller of `Stop` except that an operation whose `Status` is not
`"DONE"` but whose `Error` field is non-nil is fatal — the wrapped op
error is sent on `errChan` immediately (`none` in the result plays the
role of `instanceReady <- inst`: the instance was emitted). -/
def startInsertPollLoop : List PollFetch → Option (Option GCEError)
  | [] => none
  | .fetchErr s :: _ => some (some (.transport s))
  | .op status opErr :: rest =>
    if status = "DONE" then
      match opErr with
      | some errs => some (some (.opError errs))
      | none => some none
    else
      match opErr with
      | some errs => some (some (.opError errs))
      | none => startInsertPollLoop rest

/-- Whether a `StartEnv` takes the one exit path of `startAfterInsert`
that returns an error without setting `abandonedStart`: a non-empty
instance group, the insert reported ready, and the refresh
`Instances.Get` failed. -/
def refreshFailPath (env : StartEnv) : Bool :=
  (env.instanceGroup != "") &&
  (match env.groupWait with
   | .instanceReady _ => true
   | .ctxDone _ => false) &&
  (match env.refreshResult with
   | .error _ => true
   | .ok _ => false)

/-- The option `key` is unset, or its value parses as a duration. -/
def durationOptOK (ps : Parsers) (cfg : ProviderConfig) (key : String) : Bool :=
  !cfg.IsSet key || (ps.parseDuration (cfg.Get key)).isSome

/-- The option `key` is unset, or its value parses as an unsigned integer. -/
def uintOptOK (ps : Parsers) (cfg : ProviderConfig) (key : String) : Bool :=
  !cfg.IsSet key || (ps.parseUint (cfg.Get key)).isSome

/-- The option `key` is unset, or its value parses as a signed integer. -/
def intOptOK (ps : Parsers) (cfg : ProviderConfig) (key : String) : Bool :=
  !cfg.IsSet key || (ps.parseInt (cfg.Get key)).isSome

/-- The option `key` is unset, or its value parses as a boolean. -/
def boolOptOK (ps : Parsers) (cfg : ProviderConfig) (key : String) : Bool :=
  !cfg.IsSet key || (ps.parseBool (cfg.Get key)).isSome

/-- The resolved `IMAGE_SELECTOR_TYPE` is one of the three literals. -/
def selectorTypeOK (cfg : ProviderConfig) : Bool :=
  let t := if cfg.IsSet "IMAGE_SELECTOR_TYPE" then cfg.Get "IMAGE_SELECTOR_TYPE"
    else defaultGCEImageSelectorType
  t == "legacy" || t == "env" || t == "api"

/-! ## Helper lemmas -/

/-- The `ZONE`/`MACHINE_TYPE`/`NETWORK` write-backs do not disturb any
other key. -/
theorem resolveZMN_preserves (cfg : ProviderConfig) (k : String)
    (h1 : k ≠ "ZONE") (h2 : k ≠ "MACHINE_TYPE") (h3 : k ≠ "NETWORK") :
    ((resolveZoneMachineNetwork cfg).1).IsSet k = cfg.IsSet k ∧
    ((resolveZoneMachineNetwork cfg).1).Get k = cfg.Get k := by
  have b1 : (k == "ZONE") = false := beq_eq_false_iff_ne.mpr h1
  have b2 : (k == "MACHINE_TYPE") = false := beq_eq_false_iff_ne.mpr h2
  have b3 : (k == "NETWORK") = false := beq_eq_false_iff_ne.mpr h3
  constructor <;>
    simp [resolveZoneMachineNetwork, ProviderConfig.Set, ProviderConfig.IsSet,
      ProviderConfig.Get, List.lookup, b1, b2, b3]

/-- A fallible option parse succeeds when the option is unset or its
value parses. -/
theorem parsedOpt_cases {α : Type} (parse : String → Option α)
    (cfg : ProviderConfig) (key : String) (d : α)
    (h : (!cfg.IsSet key || (parse (cfg.Get key)).isSome) = true) :
    ∃ v, parsedOpt parse cfg key d = .ok v := by
  simp only [Bool.or_eq_true, Bool.not_eq_true'] at h
  rcases h with hu | hs
  · exact ⟨d, by simp [parsedOpt, hu]⟩
  · obtain ⟨v, hv⟩ := Option.isSome_iff_exists.mp hs
    by_cases hset : cfg.IsSet key
    · exact ⟨v, by simp [parsedOpt, hset, hv]⟩
    · exact ⟨d, by simp [parsedOpt, hset]⟩

/-- A fallible option parse fails when the option is set and its value
does not parse. -/
theorem parsedOpt_error {α : Type} (parse : String → Option α)
    (cfg : ProviderConfig) (key : String) (d : α)
    (hset : cfg.IsSet key = true) (hparse : parse (cfg.Get key) = none) :
    parsedOpt parse cfg key d
      = .error (.transport ("parse " ++ key)) := by
  simp [parsedOpt, hset, hparse]

/-- When every attempt fails, the uploader loop started at `errCount = c`
performs exactly `r - c + 1` further attempts and surfaces the error of
the last one. -/
theorem uploadLoopAux_allFail (a : Nat → Option GCEError) (r : Nat)
    (h : ∀ k, a k ≠ none) :
    ∀ n c s, c ≤ r → r - c = n →
      uploadLoopAux a r c s = (a (s + n), s + n + 1) := by
  intro n
  induction n with
  | zero =>
    intro c s hc hrc
    have hcr : c = r := by omega
    subst hcr
    rcases ha : a s with _ | e
    · exact absurd ha (h s)
    · rw [uploadLoopAux]
      simp [ha, show c + 1 > c by omega]
  | succ n ih =>
    intro c s hc hrc
    rcases ha : a s with _ | e
    · exact absurd ha (h s)
    · rw [uploadLoopAux]
      have hle : ¬(c + 1 > r) := by omega
      simp only [ha, if_neg hle]
      rw [ih (c + 1) (s + 1) (by omega) (by omega)]
      have harg : s + 1 + n = s + (n + 1) := by omega
      rw [harg]

/-- A poll-fetch prefix consisting only of operations whose status is not
`"DONE"` leaves the `Stop` poller still polling. -/
theorem stopPollLoop_all_running (polls : List PollFetch)
    (hp : polls.all (fun p => match p with
      | .op st _ => st != "DONE"
      | .fetchErr _ => false) = true) :
    stopPollLoop polls = none := by
  induction polls with
  | nil => rfl
  | cons p rest ih =>
    cases p with
    | fetchErr s => simp at hp
    | op st er =>
      simp only [List.all_cons, Bool.and_eq_true] at hp
      have hst : st ≠ "DONE" := by simpa using hp.1
      simp [stopPollLoop, hst, ih hp.2]

/-- In a list sorted by `≤`, every member is at most the last element. -/
theorem sorted_le_getLastD {l : List String} (hs : l.Sorted (· ≤ ·)) :
    ∀ x ∈ l, ∀ d, x ≤ l.getLastD d := by
  induction l with
  | nil => intro x hx; exact absurd hx (List.not_mem_nil x)
  | cons a t ih =>
    intro x hx d
    rw [List.getLastD_cons]
    rcases List.mem_cons.mp hx with rfl | hxt
    · cases t with
      | nil => simp
      | cons b t2 =>
        have hab : x ≤ b := List.rel_of_sorted_cons hs b (List.mem_cons_self b t2)
        exact le_trans hab (ih hs.of_cons b (List.mem_cons_self b t2) x)
    · exact ih hs.of_cons x hxt a

/-- The last element of a non-empty list is a member. -/
theorem getLastD_mem_of_ne_nil {l : List String} (h : l ≠ []) :
    ∀ d, l.getLastD d ∈ l := by
  induction l with
  | nil => exact absurd rfl h
  | cons a t ih =>
    intro d
    rw [List.getLastD_cons]
    cases t with
    | nil => simp
    | cons b t2 => exact List.mem_cons_of_mem a (ih (by simp) a)

/-- The `imagesByName` insertion fold is reversal plus keying by name. -/
theorem imagesByNameMap_eq (items : List ComputeImage) :
    imagesByNameMap items = items.reverse.map (fun i => (i.name, i)) := by
  have aux : ∀ (l : List ComputeImage) (acc : List (String × ComputeImage)),
      l.foldl (fun m img => (img.name, img) :: m) acc
        = l.reverse.map (fun i => (i.name, i)) ++ acc := by
    intro l
    induction l with
    | nil => intro acc; rfl
    | cons i t ih =>
      intro acc
      simp only [List.foldl_cons, List.reverse_cons, List.map_append, List.map_cons,
        List.map_nil, List.append_assoc, List.singleton_append]
      exact ih ((i.name, i) :: acc)
  simpa using aux items []

/-- A successful lookup in a name-keyed image list returns a member
carrying the looked-up name. -/
theorem lookup_name_keyed (l : List ComputeImage) (n : String) :
    ∀ img, (l.map (fun i => (i.name, i))).lookup n = some img →
      img ∈ l ∧ img.name = n := by
  induction l with
  | nil => intro img h; simp [List.lookup] at h
  | cons i t ih =>
    intro img h
    rw [List.map_cons, List.lookup] at h
    cases hbe : (n == i.name) with
    | true =>
      rw [hbe] at h
      obtain rfl : i = img := by simpa using h
      exact ⟨List.mem_cons_self i t, (eq_of_beq hbe).symm⟩
    | false =>
      rw [hbe] at h
      obtain ⟨hm, hn⟩ := ih img h
      exact ⟨List.mem_cons_of_mem i hm, hn⟩

/-- Looking up a name that occurs among the keys succeeds. -/
theorem lookup_name_keyed_isSome (l : List ComputeImage) (n : String)
    (h : n ∈ l.map (·.name)) :
    ((l.map (fun i => (i.name, i))).lookup n).isSome = true := by
  induction l with
  | nil => simp at h
  | cons i t ih =>
    rw [List.map_cons, List.lookup]
    cases hbe : (n == i.name) with
    | true => rfl
    | false =>
      apply ih
      rw [List.map_cons] at h
      rcases List.mem_cons.mp h with he | ht
      · exact absurd (beq_iff_eq.mpr he) (by simp [hbe])
      · exact ht

/-! ## Claims -/

/-- **C3** — With `UPLOAD_RETRIES = n` and every upload attempt failing
with a (retriable) error, `UploadScript` makes exactly `n + 1` attempts
and then surfaces the error of the last attempt (attempt index `n`,
0-based). -/
theorem uploadScript_retry_bound (attemptResult : Nat → Option GCEError)
    (uploadRetries : Nat) (h : ∀ k, attemptResult k ≠ none) :
    uploadScript attemptResult uploadRetries
      = (attemptResult uploadRetries, uploadRetries + 1) := by
  have := uploadLoopAux_allFail attemptResult uploadRetries h uploadRetries 0 0
    (Nat.zero_le _) (by omega)
  simpa [uploadScript] using this

/-- **C3** witness — with `UPLOAD_RETRIES = 3` and every attempt failing,
exactly 4 attempts are made and the last error is surfaced. -/
theorem uploadScript_retry_bound_witness :
    uploadScript (fun _ => some (.transport "connection refused")) 3
      = (some (.transport "connection refused"), 4) :=
  uploadScript_retry_bound (fun _ => some (.transport "connection refused")) 3
    (fun _ => by simp)

/-- **C2** counterexample — the claim says an attempt returning
`ErrStaleVM` is surfaced without retrying and does not increment the retry
counter; but with `UPLOAD_RETRIES = 1` and every attempt returning
`ErrStaleVM`, `UploadScript` makes 2 attempts (the stale attempt was
counted and retried), not 1. -/
theorem uploadScript_staleVM_counterexample :
    uploadScript (fun _ => some .errStaleVM) 1 = (some .errStaleVM, 2) ∧
    (uploadScript (fun _ => some .errStaleVM) 1).2 ≠ 1 := by
  have h : uploadScript (fun _ => some .errStaleVM) 1 = (some .errStaleVM, 2) := by
    rw [uploadScript, uploadLoopAux]
    simp only [show ¬(0 + 1 > 1) by omega, if_neg]
    rw [uploadLoopAux]
    simp
  exact ⟨h, by rw [h]; decide⟩

/-- **C2** (amended) — `UploadScript` does not special-case `ErrStaleVM`:
like any other attempt error it increments the retry counter and the
attempt is retried after `UPLOAD_RETRY_SLEEP`; when every attempt returns
`ErrStaleVM` the sentinel is surfaced only after `UPLOAD_RETRIES + 1`
attempts. -/
theorem uploadScript_staleVM_retried (attemptResult : Nat → Option GCEError)
    (uploadRetries : Nat) (h : ∀ k, attemptResult k = some .errStaleVM) :
    uploadScript attemptResult uploadRetries
      = (some .errStaleVM, uploadRetries + 1) := by
  have := uploadLoopAux_allFail attemptResult uploadRetries
    (fun k => by rw [h k]; simp) uploadRetries 0 0 (Nat.zero_le _) (by omega)
  rw [uploadScript, this, h (0 + uploadRetries)]
  simp

/-- **C2** witness — with `UPLOAD_RETRIES = 2` and every attempt stale,
`ErrStaleVM` is surfaced after 3 attempts. -/
theorem uploadScript_staleVM_retried_witness :
    uploadScript (fun _ => some .errStaleVM) 2 = (some .errStaleVM, 3) :=
  uploadScript_staleVM_retried (fun _ => some .errStaleVM) 2 (fun _ => rfl)

/-- **C9** counterexample — after an attempt that created `build.sh` and
then failed writing the script bytes (so the file exists), a subsequent
retry whose SSH dial fails returns the dial error, not `ErrStaleVM`; the
claim that every subsequent retry returns `ErrStaleVM` is false. -/
theorem uploadAttempt_staleVM_counterexample :
    (uploadScriptAttempt ⟨none, none, none, some (.transport "broken pipe")⟩
        false).2 = true ∧
    uploadScriptAttempt ⟨some (.transport "dial failed"), none, none, none⟩ true
      = (some (.transport "dial failed"), true) ∧
    (uploadScriptAttempt ⟨some (.transport "dial failed"), none, none, none⟩
        true).1 ≠ some .errStaleVM := by
  refine ⟨rfl, rfl, by decide⟩

/-- **C9** (amended) — within a single `UploadScript` call, an attempt
that creates `build.sh` via SFTP but fails while writing the script bytes
leaves the file in place, and every subsequent retry of that call whose
SSH and SFTP setup succeeds reaches the stale check, observes the
partially-written file via `Lstat("build.sh")`, and returns `ErrStaleVM`. -/
theorem uploadAttempt_stale_after_partial_write (env1 env2 : AttemptEnv)
    (e : GCEError)
    (h1 : env1.sshResult = none) (h2 : env1.sftpResult = none)
    (h3 : env1.createResult = none) (h4 : env1.writeResult = some e)
    (h5 : env2.sshResult = none) (h6 : env2.sftpResult = none) :
    uploadScriptAttempt env1 false = (some e, true) ∧
    uploadScriptAttempt env2 true = (some .errStaleVM, true) := by
  obtain ⟨s1, f1, c1, w1⟩ := env1
  obtain ⟨s2, f2, c2, w2⟩ := env2
  simp only at h1 h2 h3 h4 h5 h6
  subst h1 h2 h3 h4 h5 h6
  exact ⟨rfl, rfl⟩

/-- **C9** witness — a write failure leaves `build.sh` behind and the next
connected attempt returns `ErrStaleVM`. -/
theorem uploadAttempt_stale_after_partial_write_witness :
    uploadScriptAttempt ⟨none, none, none, some (.transport "broken pipe")⟩ false
      = (some (.transport "broken pipe"), true) ∧
    uploadScriptAttempt ⟨none, none, none, none⟩ true
      = (some .errStaleVM, true) :=
  uploadAttempt_stale_after_partial_write
    ⟨none, none, none, some (.transport "broken pipe")⟩
    ⟨none, none, none, none⟩ (.transport "broken pipe")
    rfl rfl rfl rfl rfl rfl

/-- **C7** — `RunScript` maps the remote run outcome as: a `nil` error
from `bash ~/build.sh` yields `{Completed: true, ExitCode: 0}` with no
error; a typed remote-exit error yields `{Completed: true, ExitCode:
uint8(status)}` with no error; and a dial, session-setup, PTY or other
run error yields `{Completed: false}` together with that error. -/
theorem runScript_outcome_mapping (ssh sess pty : Option GCEError)
    (run : SSHRunOutcome) (s : Int) (e : GCEError) :
    (ssh = none → sess = none → pty = none →
      (run = .success → runScript ⟨ssh, sess, pty, run⟩ = (⟨true, 0⟩, none)) ∧
      (run = .exitError s →
        runScript ⟨ssh, sess, pty, run⟩ = (⟨true, (s % 256).toNat⟩, none)) ∧
      (run = .otherError e →
        runScript ⟨ssh, sess, pty, run⟩ = (⟨false, 0⟩, some e))) ∧
    (ssh = some e → runScript ⟨ssh, sess, pty, run⟩ = (⟨false, 0⟩, some e)) ∧
    (ssh = none → sess = some e →
      runScript ⟨ssh, sess, pty, run⟩ = (⟨false, 0⟩, some e)) ∧
    (ssh = none → sess = none → pty = some e →
      runScript ⟨ssh, sess, pty, run⟩ = (⟨false, 0⟩, some e)) := by
  refine ⟨fun ha hb hc => ?_, fun ha => ?_, fun ha hb => ?_, fun ha hb hc => ?_⟩ <;>
    subst_vars
  · exact ⟨fun hr => by subst hr; rfl, fun hr => by subst hr; rfl,
      fun hr => by subst hr; rfl⟩
  · rfl
  · rfl
  · rfl

/-- **C7** witness — a remote command exiting 7 yields
`{Completed: true, ExitCode: 7}`; a dial failure yields
`{Completed: false}` plus the dial error. -/
theorem runScript_outcome_mapping_witness :
    runScript ⟨none, none, none, .exitError 7⟩ = (⟨true, 7⟩, none) ∧
    runScript ⟨some (.transport "dial tcp: refused"), none, none, .success⟩
      = (⟨false, 0⟩, some (.transport "dial tcp: refused")) := by
  constructor
  · have h := ((runScript_outcome_mapping none none none (.exitError 7) 7
      (.transport "x")).1 rfl rfl rfl).2.1 rfl
    have h2 : (((7 : Int) % 256).toNat) = 7 := by decide
    rw [h2] at h
    exact h
  · exact (runScript_outcome_mapping
      (some (.transport "dial tcp: refused")) none none .success 0
      (.transport "dial tcp: refused")).2.1 rfl

/-- **C1** counterexample — the claim says every non-success exit of
`Start` after a successful insert sets `abandonedStart`; but when the
instance group is non-empty, the insert reported ready, and the refresh
`Instances.Get` fails, `Start` returns the error with `abandonedStart`
still `false`, so no delete is issued for the inserted instance. -/
theorem start_abandon_counterexample :
    (startAfterInsert ⟨"builders", .instanceReady ⟨"testing-gce-1"⟩,
        .error (.transport "refresh failed"), .ok (),
        .instanceReady ⟨"testing-gce-1"⟩⟩).abandonedStart = false ∧
    (startAfterInsert ⟨"builders", .instanceReady ⟨"testing-gce-1"⟩,
        .error (.transport "refresh failed"), .ok (),
        .instanceReady ⟨"testing-gce-1"⟩⟩).result
      = .error (.transport "refresh failed") :=
  ⟨rfl, rfl⟩

/-- **C1** (amended) — for every execution of `Start` in which the insert
succeeded, every non-success exit path sets `abandonedStart` (so the
deferred best-effort delete is issued) **except** the failed instance
refresh (`Instances.Get`) in the group-join path, which returns its error
with the flag still false.  Off that path, every run either returns the
instance to the caller or has the delete issued. -/
theorem start_abandon_or_deliver (env : StartEnv)
    (h : refreshFailPath env = false) :
    (startAfterInsert env).result.toOption.isSome = true ∨
    (startAfterInsert env).abandonedStart = true := by
  obtain ⟨g, gw, rr, ar, fs⟩ := env
  by_cases hg : g = ""
  · subst hg
    cases fs <;> simp [startAfterInsert, startFinalSelect, Except.toOption]
  · cases gw with
    | ctxDone c => simp [startAfterInsert, hg]
    | instanceReady i =>
      cases rr with
      | error e =>
        exfalso
        simp [refreshFailPath, hg] at h
      | ok i2 =>
        cases ar with
        | error e => simp [startAfterInsert, hg]
        | ok u =>
          cases fs <;>
            simp [startAfterInsert, hg, startFinalSelect, Except.toOption]

/-- **C1** witness — an op error received on the error channel in the
no-group path sets `abandonedStart`. -/
theorem start_abandon_or_deliver_witness :
    refreshFailPath ⟨"", .instanceReady ⟨"testing-gce-1"⟩, .ok ⟨"testing-gce-1"⟩,
        .ok (), .errReceived (.opError
          [⟨"QUOTA_EXCEEDED", "zones/us-central1-a", "out of cpus"⟩])⟩ = false ∧
    ((startAfterInsert ⟨"", .instanceReady ⟨"testing-gce-1"⟩,
        .ok ⟨"testing-gce-1"⟩, .ok (), .errReceived (.opError
          [⟨"QUOTA_EXCEEDED", "zones/us-central1-a", "out of cpus"⟩])⟩).result.toOption.isSome
        = true ∨
      (startAfterInsert ⟨"", .instanceReady ⟨"testing-gce-1"⟩,
        .ok ⟨"testing-gce-1"⟩, .ok (), .errReceived (.opError
          [⟨"QUOTA_EXCEEDED", "zones/us-central1-a", "out of cpus"⟩])⟩).abandonedStart
        = true) :=
  ⟨by decide, start_abandon_or_deliver _ (by decide)⟩

/-- **C10** — the polling loop of `Stop` inspects the `Error` payload of
the delete operation only after its `Status` equals `"DONE"`: a non-DONE
operation with a non-nil `Error` is not fatal (the loop sleeps
`BOOT_POLL_SLEEP` and polls again, and a prefix of only non-DONE
operations leaves it polling), while the insert poller of `Start` treats
the same fetch as fatal; the loop terminates with a value only on a DONE
operation or on a transport error. -/
theorem stopPoll_error_only_after_done (status fs : String)
    (errs : List OpErrorItem) (rest polls : List PollFetch)
    (h : status ≠ "DONE")
    (hp : polls.all (fun p => match p with
      | .op st _ => st != "DONE"
      | .fetchErr _ => false) = true) :
    stopPollLoop (.op status (some errs) :: rest) = stopPollLoop rest ∧
    startInsertPollLoop (.op status (some errs) :: rest)
      = some (some (.opError errs)) ∧
    stopPollLoop polls = none ∧
    stopPollLoop (.op "DONE" (some errs) :: rest) = some (some (.opError errs)) ∧
    stopPollLoop (.op "DONE" none :: rest) = some none ∧
    stopPollLoop (.fetchErr fs :: rest) = some (some (.transport fs)) := by
  refine ⟨?_, ?_, stopPollLoop_all_running polls hp, ?_, ?_, ?_⟩ <;>
    simp [stopPollLoop, startInsertPollLoop, h]

/-- **C10** witness — a RUNNING delete operation carrying an error payload
is polled past by `Stop` but fatal to the insert poller of `Start`. -/
theorem stopPoll_error_only_after_done_witness :
    ("RUNNING" : String) ≠ "DONE" ∧
    ([PollFetch.op "PENDING" (some [⟨"c", "l", "m"⟩]),
      PollFetch.op "RUNNING" none].all (fun p => match p with
      | .op st _ => st != "DONE"
      | .fetchErr _ => false) = true) ∧
    (stopPollLoop (.op "RUNNING" (some [⟨"c", "l", "m"⟩]) :: [])
        = stopPollLoop [] ∧
      startInsertPollLoop (.op "RUNNING" (some [⟨"c", "l", "m"⟩]) :: [])
        = some (some (.opError [⟨"c", "l", "m"⟩])) ∧
      stopPollLoop [PollFetch.op "PENDING" (some [⟨"c", "l", "m"⟩]),
        PollFetch.op "RUNNING" none] = none ∧
      stopPollLoop (.op "DONE" (some [⟨"c", "l", "m"⟩]) :: [])
        = some (some (.opError [⟨"c", "l", "m"⟩])) ∧
      stopPollLoop (.op "DONE" none :: []) = some none ∧
      stopPollLoop (.fetchErr "fetch failed" :: [])
        = some (some (.transport "fetch failed"))) :=
  ⟨by decide, by decide,
    stopPoll_error_only_after_done "RUNNING" "fetch failed" [⟨"c", "l", "m"⟩]
      [] [PollFetch.op "PENDING" (some [⟨"c", "l", "m"⟩]),
        PollFetch.op "RUNNING" none] (by decide) (by decide)⟩

/-- **C5** — for a non-empty image list returned by the cloud
`Images.List` call with a given filter, `imageByFilter` returns an image
from the list whose `Name` is lexicographically greatest among the
returned names; for an empty list it returns the error
`"no image found with filter {f}"` with the filter interpolated. -/
theorem imageByFilter_max_name
    (cloud : String → Except GCEError (List ComputeImage)) (filter : String)
    (items : List ComputeImage) (hc : cloud filter = .ok items) :
    (items = [] → imageByFilter cloud filter
      = .error (.msg ("no image found with filter " ++ filter))) ∧
    (items ≠ [] →
      match imageByFilter cloud filter with
      | .ok img => img ∈ items ∧
          items.all (fun i => decide (i.name ≤ img.name)) = true
      | .error _ => False) := by
  constructor
  · intro he
    subst he
    simp [imageByFilter, hc]
  · intro hne
    have hlen : ¬items.length = 0 := by
      simpa [List.length_eq_zero] using hne
    have hsorted : (List.insertionSort (· ≤ ·) (items.map (·.name))).Sorted
        (· ≤ ·) := List.sorted_insertionSort _ _
    have hsne : List.insertionSort (· ≤ ·) (items.map (·.name)) ≠ [] := by
      intro h0
      have := congrArg List.length h0
      simp at this
      exact hne this
    have hmemS : (List.insertionSort (· ≤ ·) (items.map (·.name))).getLastD ""
        ∈ List.insertionSort (· ≤ ·) (items.map (·.name)) :=
      getLastD_mem_of_ne_nil hsne ""
    have hmemN : (List.insertionSort (· ≤ ·) (items.map (·.name))).getLastD ""
        ∈ items.map (·.name) := (List.mem_insertionSort _).mp hmemS
    have hub : ∀ x ∈ items.map (·.name),
        x ≤ (List.insertionSort (· ≤ ·) (items.map (·.name))).getLastD "" :=
      fun x hx => sorted_le_getLastD hsorted x
        ((List.mem_insertionSort _).mpr hx) ""
    have hlook : ((imagesByNameMap items).lookup
        ((List.insertionSort (· ≤ ·) (items.map (·.name))).getLastD "")).isSome
        = true := by
      rw [imagesByNameMap_eq]
      apply lookup_name_keyed_isSome
      rw [List.map_reverse, List.mem_reverse]
      exact hmemN
    obtain ⟨img, himg⟩ := Option.isSome_iff_exists.mp hlook
    obtain ⟨hin, hname⟩ : img ∈ items.reverse ∧ img.name
        = (List.insertionSort (· ≤ ·) (items.map (·.name))).getLastD "" := by
      apply lookup_name_keyed items.reverse _ img
      rw [← imagesByNameMap_eq]
      exact himg
    have hres : imageByFilter cloud filter = .ok img := by
      simp only [imageByFilter, hc, if_neg hlen]
      rw [himg]
    rw [hres]
    refine ⟨List.mem_reverse.mp hin, ?_⟩
    rw [List.all_eq_true]
    intro i hi
    rw [decide_eq_true_eq, hname]
    exact hub i.name (List.mem_map_of_mem _ hi)

/-- **C5** witness — given images named `travis-ci-go-00`,
`travis-ci-go-02`, `travis-ci-go-01`, the returned image carries the
greatest name `travis-ci-go-02`; an empty list yields the interpolated
error message. -/
theorem imageByFilter_max_name_witness :
    (([⟨"travis-ci-go-00", "l0"⟩, ⟨"travis-ci-go-02", "l2"⟩,
        ⟨"travis-ci-go-01", "l1"⟩] : List ComputeImage) ≠ []) ∧
    (match imageByFilter
        (fun _ => .ok [⟨"travis-ci-go-00", "l0"⟩, ⟨"travis-ci-go-02", "l2"⟩,
          ⟨"travis-ci-go-01", "l1"⟩]) "name eq ^travis-ci-go.+" with
      | .ok img => img ∈ ([⟨"travis-ci-go-00", "l0"⟩, ⟨"travis-ci-go-02", "l2"⟩,
          ⟨"travis-ci-go-01", "l1"⟩] : List ComputeImage) ∧
          ([⟨"travis-ci-go-00", "l0"⟩, ⟨"travis-ci-go-02", "l2"⟩,
            ⟨"travis-ci-go-01", "l1"⟩] : List ComputeImage).all
            (fun i => decide (i.name ≤ img.name)) = true
      | .error _ => False) ∧
    imageByFilter (fun _ => .ok []) "^x"
      = .error (.msg "no image found with filter ^x") :=
  ⟨by decide,
    (imageByFilter_max_name
      (fun _ => .ok [⟨"travis-ci-go-00", "l0"⟩, ⟨"travis-ci-go-02", "l2"⟩,
        ⟨"travis-ci-go-01", "l1"⟩]) "name eq ^travis-ci-go.+" _ rfl).2
      (by decide),
    (imageByFilter_max_name (fun _ => .ok []) "^x" [] rfl).1 rfl⟩

/-- **C6** — the legacy image selector builds the candidate language list
as the value of `LANGUAGE_MAP_{UPPER(lang)}` if set, else the raw
`Language`, followed by `DEFAULT_LANGUAGE`; it queries candidate by
candidate with filter `name eq ^travis-ci-{lang}.+`, returns the result of
the first candidate yielding at least one image, and when no candidate
matches returns the error of the last candidate. -/
theorem legacyImageSelect_spec
    (cloud : String → Except GCEError (List ComputeImage))
    (cfg : ProviderConfig) (defaultLanguage : String)
    (attrs : StartAttributes) (first : String) (img img2 : ComputeImage)
    (e1 e2 : GCEError)
    (hfirst : first = (if cfg.IsSet ("LANGUAGE_MAP_" ++ attrs.language.toUpper)
      then cfg.Get ("LANGUAGE_MAP_" ++ attrs.language.toUpper)
      else attrs.language)) :
    legacyCandidateLangs cfg defaultLanguage attrs = [first, defaultLanguage] ∧
    imageForLanguage cloud first
      = imageByFilter cloud ("name eq ^travis-ci-" ++ first ++ ".+") ∧
    (imageForLanguage cloud first = .ok img →
      legacyImageSelect cloud cfg defaultLanguage attrs = .ok img) ∧
    (imageForLanguage cloud first = .error e1 →
      imageForLanguage cloud defaultLanguage = .ok img2 →
      legacyImageSelect cloud cfg defaultLanguage attrs = .ok img2) ∧
    (imageForLanguage cloud first = .error e1 →
      imageForLanguage cloud defaultLanguage = .error e2 →
      legacyImageSelect cloud cfg defaultLanguage attrs = .error e2) := by
  subst hfirst
  have hcl : legacyCandidateLangs cfg defaultLanguage attrs
      = [(if cfg.IsSet ("LANGUAGE_MAP_" ++ attrs.language.toUpper)
          then cfg.Get ("LANGUAGE_MAP_" ++ attrs.language.toUpper)
          else attrs.language), defaultLanguage] := by
    by_cases h : cfg.IsSet ("LANGUAGE_MAP_" ++ attrs.language.toUpper) <;>
      simp [legacyCandidateLangs, h]
  refine ⟨hcl, rfl, fun h1 => ?_, fun h1 h2 => ?_, fun h1 h2 => ?_⟩ <;>
    simp only [legacyImageSelect, hcl, legacySelectLoop, h1] <;>
    simp [legacySelectLoop, h2]

/-- **C6** witness — with no language map for `ocaml` and
`DEFAULT_LANGUAGE = minimal`, no `travis-ci-ocaml` image exists, and the
selector falls back to the `travis-ci-minimal` image. -/
theorem legacyImageSelect_spec_witness :
    legacyCandidateLangs [] "minimal" ⟨"ocaml", "", "", "", ""⟩
      = ["ocaml", "minimal"] ∧
    legacyImageSelect
      (fun f => if f = "name eq ^travis-ci-minimal.+"
        then .ok [⟨"travis-ci-minimal-01", "lm"⟩] else .ok [])
      [] "minimal" ⟨"ocaml", "", "", "", ""⟩
      = .ok ⟨"travis-ci-minimal-01", "lm"⟩ := by
  have h := legacyImageSelect_spec
    (fun f => if f = "name eq ^travis-ci-minimal.+"
      then .ok [⟨"travis-ci-minimal-01", "lm"⟩] else .ok [])
    [] "minimal" ⟨"ocaml", "", "", "", ""⟩ "ocaml"
    ⟨"travis-ci-minimal-01", "lm"⟩ ⟨"travis-ci-minimal-01", "lm"⟩
    (.msg "no image found with filter name eq ^travis-ci-ocaml.+")
    (.msg "x") (by decide)
  exact ⟨h.1, h.2.2.2.1 (by decide) (by decide)⟩

/-- **C4** — during provider construction every option with a non-string
type (`BOOT_POLL_SLEEP`, `UPLOAD_RETRIES`, `UPLOAD_RETRY_SLEEP`,
`AUTO_IMPLODE`, `HARD_TIMEOUT_MINUTES`) that fails to parse makes
construction fail, except `DISK_SIZE`: a malformed `DISK_SIZE` never fails
construction and the disk size silently falls back to the default 20. -/
theorem construction_parse_errors (ps : Parsers) (cfg : ProviderConfig) :
    (durationOptOK ps cfg "BOOT_POLL_SLEEP" = true →
     uintOptOK ps cfg "UPLOAD_RETRIES" = true →
     durationOptOK ps cfg "UPLOAD_RETRY_SLEEP" = true →
     boolOptOK ps cfg "AUTO_IMPLODE" = true →
     intOptOK ps cfg "HARD_TIMEOUT_MINUTES" = true →
     selectorTypeOK cfg = true →
     cfg.IsSet "DISK_SIZE" = true →
     ps.parseInt (cfg.Get "DISK_SIZE") = none →
     match resolveGCEOptions ps cfg with
     | .ok r => r.diskSize = defaultGCEDiskSize
     | .error _ => False) ∧
    (cfg.IsSet "BOOT_POLL_SLEEP" = true →
      ps.parseDuration (cfg.Get "BOOT_POLL_SLEEP") = none →
      (resolveGCEOptions ps cfg).toOption = none) ∧
    (cfg.IsSet "UPLOAD_RETRIES" = true →
      ps.parseUint (cfg.Get "UPLOAD_RETRIES") = none →
      (resolveGCEOptions ps cfg).toOption = none) ∧
    (cfg.IsSet "UPLOAD_RETRY_SLEEP" = true →
      ps.parseDuration (cfg.Get "UPLOAD_RETRY_SLEEP") = none →
      (resolveGCEOptions ps cfg).toOption = none) ∧
    (cfg.IsSet "AUTO_IMPLODE" = true →
      ps.parseBool (cfg.Get "AUTO_IMPLODE") = none →
      (resolveGCEOptions ps cfg).toOption = none) ∧
    (cfg.IsSet "HARD_TIMEOUT_MINUTES" = true →
      ps.parseInt (cfg.Get "HARD_TIMEOUT_MINUTES") = none →
      (resolveGCEOptions ps cfg).toOption = none) := by
  refine ⟨?_, ?_, ?_, ?_, ?_, ?_⟩
  · intro hB hU hUS hA hH hSel hDS hDSp
    have pB := resolveZMN_preserves cfg "BOOT_POLL_SLEEP"
      (by decide) (by decide) (by decide)
    have pU := resolveZMN_preserves cfg "UPLOAD_RETRIES"
      (by decide) (by decide) (by decide)
    have pUS := resolveZMN_preserves cfg "UPLOAD_RETRY_SLEEP"
      (by decide) (by decide) (by decide)
    have pA := resolveZMN_preserves cfg "AUTO_IMPLODE"
      (by decide) (by decide) (by decide)
    have pH := resolveZMN_preserves cfg "HARD_TIMEOUT_MINUTES"
      (by decide) (by decide) (by decide)
    have pS := resolveZMN_preserves cfg "IMAGE_SELECTOR_TYPE"
      (by decide) (by decide) (by decide)
    have pD := resolveZMN_preserves cfg "DISK_SIZE"
      (by decide) (by decide) (by decide)
    obtain ⟨vB, hvB⟩ := parsedOpt_cases ps.parseDuration
      ((resolveZoneMachineNetwork cfg).1) "BOOT_POLL_SLEEP"
      defaultGCEBootPollSleep (by rw [pB.1, pB.2]; exact hB)
    obtain ⟨vU, hvU⟩ := parsedOpt_cases ps.parseUint
      ((resolveZoneMachineNetwork cfg).1) "UPLOAD_RETRIES"
      defaultGCEUploadRetries (by rw [pU.1, pU.2]; exact hU)
    obtain ⟨vUS, hvUS⟩ := parsedOpt_cases ps.parseDuration
      ((resolveZoneMachineNetwork cfg).1) "UPLOAD_RETRY_SLEEP"
      defaultGCEUploadRetrySleep (by rw [pUS.1, pUS.2]; exact hUS)
    obtain ⟨vA, hvA⟩ := parsedOpt_cases ps.parseBool
      ((resolveZoneMachineNetwork cfg).1) "AUTO_IMPLODE" true
      (by rw [pA.1, pA.2]; exact hA)
    obtain ⟨vH, hvH⟩ := parsedOpt_cases ps.parseInt
      ((resolveZoneMachineNetwork cfg).1) "HARD_TIMEOUT_MINUTES"
      defaultGCEHardTimeoutMinutes (by rw [pH.1, pH.2]; exact hH)
    have hselOK : ¬((if (resolveZoneMachineNetwork cfg).1.IsSet
          "IMAGE_SELECTOR_TYPE" then (resolveZoneMachineNetwork cfg).1.Get
          "IMAGE_SELECTOR_TYPE" else defaultGCEImageSelectorType) ≠ "legacy" ∧
        (if (resolveZoneMachineNetwork cfg).1.IsSet "IMAGE_SELECTOR_TYPE"
          then (resolveZoneMachineNetwork cfg).1.Get "IMAGE_SELECTOR_TYPE"
          else defaultGCEImageSelectorType) ≠ "env" ∧
        (if (resolveZoneMachineNetwork cfg).1.IsSet "IMAGE_SELECTOR_TYPE"
          then (resolveZoneMachineNetwork cfg).1.Get "IMAGE_SELECTOR_TYPE"
          else defaultGCEImageSelectorType) ≠ "api") := by
      rw [pS.1, pS.2]
      simp only [selectorTypeOK, Bool.or_eq_true, beq_iff_eq] at hSel
      rintro ⟨n1, n2, n3⟩
      rcases hSel with (h | h) | h
      · exact n1 h
      · exact n2 h
      · exact n3 h
    simp only [resolveGCEOptions, hvB, hvU, hvUS, hvA, hvH, if_neg hselOK]
    rw [pD.1, pD.2, hDS, hDSp]
    simp
  all_goals
    intro hset hparse
  · have hp := resolveZMN_preserves cfg "BOOT_POLL_SLEEP"
      (by decide) (by decide) (by decide)
    have herr := parsedOpt_error ps.parseDuration
      ((resolveZoneMachineNetwork cfg).1) "BOOT_POLL_SLEEP"
      defaultGCEBootPollSleep (by rw [hp.1]; exact hset)
      (by rw [hp.2]; exact hparse)
    simp only [resolveGCEOptions, herr]
    rfl
  · have hp := resolveZMN_preserves cfg "UPLOAD_RETRIES"
      (by decide) (by decide) (by decide)
    have herr := parsedOpt_error ps.parseUint
      ((resolveZoneMachineNetwork cfg).1) "UPLOAD_RETRIES"
      defaultGCEUploadRetries (by rw [hp.1]; exact hset)
      (by rw [hp.2]; exact hparse)
    simp only [resolveGCEOptions, herr]
    repeat' split
    all_goals rfl
  · have hp := resolveZMN_preserves cfg "UPLOAD_RETRY_SLEEP"
      (by decide) (by decide) (by decide)
    have herr := parsedOpt_error ps.parseDuration
      ((resolveZoneMachineNetwork cfg).1) "UPLOAD_RETRY_SLEEP"
      defaultGCEUploadRetrySleep (by rw [hp.1]; exact hset)
      (by rw [hp.2]; exact hparse)
    simp only [resolveGCEOptions, herr]
    repeat' split
    all_goals rfl
  · have hp := resolveZMN_preserves cfg "AUTO_IMPLODE"
      (by decide) (by decide) (by decide)
    have herr := parsedOpt_error ps.parseBool
      ((resolveZoneMachineNetwork cfg).1) "AUTO_IMPLODE" true
      (by rw [hp.1]; exact hset) (by rw [hp.2]; exact hparse)
    simp only [resolveGCEOptions, herr]
    repeat' split
    all_goals rfl
  · have hp := resolveZMN_preserves cfg "HARD_TIMEOUT_MINUTES"
      (by decide) (by decide) (by decide)
    have herr := parsedOpt_error ps.parseInt
      ((resolveZoneMachineNetwork cfg).1) "HARD_TIMEOUT_MINUTES"
      defaultGCEHardTimeoutMinutes (by rw [hp.1]; exact hset)
      (by rw [hp.2]; exact hparse)
    simp only [resolveGCEOptions, herr]
    repeat' split
    all_goals rfl

/-- **C4** witness — with a malformed `DISK_SIZE` and nothing else set,
construction succeeds with disk size 20; with a malformed
`BOOT_POLL_SLEEP`, construction fails. -/
theorem construction_parse_errors_witness :
    (ProviderConfig.IsSet [("DISK_SIZE", "twenty")] "DISK_SIZE" = true) ∧
    (match resolveGCEOptions ⟨fun _ => none, fun _ => none, fun _ => none,
        fun _ => none⟩ [("DISK_SIZE", "twenty")] with
     | .ok r => r.diskSize = defaultGCEDiskSize
     | .error _ => False) ∧
    (resolveGCEOptions ⟨fun _ => none, fun _ => none, fun _ => none,
        fun _ => none⟩ [("BOOT_POLL_SLEEP", "3x")]).toOption = none :=
  ⟨by decide,
    (construction_parse_errors ⟨fun _ => none, fun _ => none, fun _ => none,
        fun _ => none⟩ [("DISK_SIZE", "twenty")]).1
      (by decide) (by decide) (by decide) (by decide) (by decide) (by decide)
      (by decide) rfl,
    (construction_parse_errors ⟨fun _ => none, fun _ => none, fun _ => none,
        fun _ => none⟩ [("BOOT_POLL_SLEEP", "3x")]).2.1 (by decide) rfl⟩

/-- **C8** — provider construction writes the resolved `ZONE`,
`MACHINE_TYPE` and `NETWORK` values (the configured value if set,
otherwise `us-central1-a` / `n1-standard-2` / `default`) back onto the
config mapping, so every subsequent `Get` of these options observes the
resolved value; in particular a successful construction carries a config
on which `Get` returns exactly the resolved names. -/
theorem config_write_back (cfg : ProviderConfig) (ps : Parsers) :
    ((resolveZoneMachineNetwork cfg).1).Get "ZONE"
      = (if cfg.IsSet "ZONE" then cfg.Get "ZONE" else defaultGCEZone) ∧
    ((resolveZoneMachineNetwork cfg).1).Get "MACHINE_TYPE"
      = (if cfg.IsSet "MACHINE_TYPE" then cfg.Get "MACHINE_TYPE"
        else defaultGCEMachineType) ∧
    ((resolveZoneMachineNetwork cfg).1).Get "NETWORK"
      = (if cfg.IsSet "NETWORK" then cfg.Get "NETWORK"
        else defaultGCENetwork) ∧
    (match resolveGCEOptions ps cfg with
     | .ok r =>
        r.cfg.Get "ZONE" = r.zoneName ∧
        r.cfg.Get "MACHINE_TYPE" = r.mtName ∧
        r.cfg.Get "NETWORK" = r.nwName ∧
        r.zoneName = (if cfg.IsSet "ZONE" then cfg.Get "ZONE"
          else defaultGCEZone) ∧
        r.mtName = (if cfg.IsSet "MACHINE_TYPE" then cfg.Get "MACHINE_TYPE"
          else defaultGCEMachineType) ∧
        r.nwName = (if cfg.IsSet "NETWORK" then cfg.Get "NETWORK"
          else defaultGCENetwork)
     | .error _ => True) := by
  have hZ : ((resolveZoneMachineNetwork cfg).1).Get "ZONE"
      = (if cfg.IsSet "ZONE" then cfg.Get "ZONE" else defaultGCEZone) := by
    simp [resolveZoneMachineNetwork, ProviderConfig.Set, ProviderConfig.IsSet,
      ProviderConfig.Get, List.lookup]
  have hM : ((resolveZoneMachineNetwork cfg).1).Get "MACHINE_TYPE"
      = (if cfg.IsSet "MACHINE_TYPE" then cfg.Get "MACHINE_TYPE"
        else defaultGCEMachineType) := by
    simp [resolveZoneMachineNetwork, ProviderConfig.Set, ProviderConfig.IsSet,
      ProviderConfig.Get, List.lookup]
  have hN : ((resolveZoneMachineNetwork cfg).1).Get "NETWORK"
      = (if cfg.IsSet "NETWORK" then cfg.Get "NETWORK"
        else defaultGCENetwork) := by
    simp [resolveZoneMachineNetwork, ProviderConfig.Set, ProviderConfig.IsSet,
      ProviderConfig.Get, List.lookup]
  have hz2 : (resolveZoneMachineNetwork cfg).2.1
      = (if cfg.IsSet "ZONE" then cfg.Get "ZONE" else defaultGCEZone) := rfl
  have hm2 : (resolveZoneMachineNetwork cfg).2.2.1
      = (if cfg.IsSet "MACHINE_TYPE" then cfg.Get "MACHINE_TYPE"
        else defaultGCEMachineType) := by
    simp [resolveZoneMachineNetwork, ProviderConfig.Set, ProviderConfig.IsSet,
      ProviderConfig.Get, List.lookup]
  have hn2 : (resolveZoneMachineNetwork cfg).2.2.2
      = (if cfg.IsSet "NETWORK" then cfg.Get "NETWORK"
        else defaultGCENetwork) := by
    simp [resolveZoneMachineNetwork, ProviderConfig.Set, ProviderConfig.IsSet,
      ProviderConfig.Get, List.lookup]
  refine ⟨hZ, hM, hN, ?_⟩
  rcases hres : resolveGCEOptions ps cfg with e | r
  · trivial
  · simp only [resolveGCEOptions] at hres
    repeat' split at hres
    all_goals try exact Except.noConfusion hres
    all_goals
      injection hres with h
      subst h
      exact ⟨hZ.trans hz2.symm, hM.trans hm2.symm, hN.trans hn2.symm,
        hz2, hm2, hn2⟩

end GCEWorker
